import Mathlib

/-!
A shallow embedding of the software GPU core of the Citra emulator
(2014 snapshot): the PICA vertex-shader virtual machine
(vertex_shader.cpp), the rasterizer's texture-unit handling and TEV
combiners (rasterizer.cpp), and the register-triggered memory fill
engine (gpu.cpp).

Float24 values are modelled as exact rationals: every claim settled
here concerns data routing, control flow, or 8-bit integer arithmetic,
none of which depend on the 24-bit quantization.  The nihstro
instruction decoder is external to the repository, so instructions and
swizzle patterns are embedded at the decoded level (the fields the
interpreter reads), not at the bit level.
-/

namespace Pica

namespace VertexShader

/-- The INVALID_ADDRESS sentinel of VertexShaderState (0xFFFFFFFF in
the C++, where it marks a call-stack entry holding no saved PC).  A
call-stack entry is modelled as an Option: a saved PC is some pc and
the sentinel is the distinguished value none, so that the sentinel
test of END is a constructor match. -/
def INVALID_ADDRESS : Option Nat := none

/-- Source register banks distinguished by LookupSourceRegister. -/
inductive RegisterType
  | Input
  | Temporary
  | FloatUniform
deriving DecidableEq

/-- A decoded source register operand. -/
structure SourceRegister where
  rtype : RegisterType
  index : Nat
deriving DecidableEq

/-- The opcodes handled by the switch in ProcessShaderCode.  The C++
default case (unknown opcode) logs and continues exactly like NOP and
is therefore represented by NOP. -/
inductive OpCode
  | ADD | MUL | DP3 | DP4 | RCP | RSQ | MOV | CALL | NOP | END
deriving DecidableEq

/-- A decoded swizzle pattern: per-source component selectors, the
destination component write mask, and the src1 negation flag (the
fields read by ProcessShaderCode). -/
structure SwizzlePattern where
  selSrc1 : Fin 4 → Fin 4
  selSrc2 : Fin 4 → Fin 4
  destMask : Fin 4 → Bool
  negate_src1 : Bool

/-- A decoded instruction word: the fields of nihstro's Instruction
that ProcessShaderCode reads.  For the opcodes modelled here the
SrcInversed subtype flag is clear, so GetSrc1/GetSrc2 return the plain
src1/src2 fields. -/
structure Instruction where
  opcode : OpCode
  dest : Nat
  src1 : SourceRegister
  src2 : SourceRegister
  operand_desc_id : Nat
  dest_offset : Nat

/-- The execution environment: shader memory, swizzle memory and the
float uniform bank (shader_memory, swizzle_data, shader_uniforms.f),
all total maps.  rsqFn abstracts the host sqrt-based reciprocal square
root used by RSQ (no claim depends on its value). -/
structure ShaderEnv where
  prog : Nat → Instruction
  swz : Nat → SwizzlePattern
  uni : Nat → Fin 4 → ℚ
  rsqFn : ℚ → ℚ

/-- VertexShaderState.  Pointers are replaced by indices:
program_counter is the offset into shader memory; the input register
table maps a slot to the four lanes it points at; the output register
table maps a table slot to the lane index inside the OutputVertex
(viewed as a flat lane array out_lanes); the call stack is a total map
so that an out-of-bounds push remains observable, its entries carrying
some pc for a saved PC and none for INVALID_ADDRESS. -/
structure VertexShaderState where
  program_counter : Nat
  input_register_table : Nat → Fin 4 → ℚ
  output_register_table : Nat → Nat
  out_lanes : Nat → ℚ
  temporary_registers : Nat → Fin 4 → ℚ
  status_registers : Fin 2 → Bool
  call_stack : Nat → Option Nat
  call_stack_pointer : Nat
  max_offset : Nat
  max_opdesc_id : Nat

/-- LookupSourceRegister from ProcessShaderCode. -/
def lookupSource (env : ShaderEnv) (s : VertexShaderState) (r : SourceRegister) :
    Fin 4 → ℚ :=
  match r.rtype with
  | .Input => s.input_register_table r.index
  | .Temporary => s.temporary_registers r.index
  | .FloatUniform => env.uni r.index

/-- The destination resolution of ProcessShaderCode: dest < 0x08 writes
through output_register_table[4*dest] at lane offset i; dest in
[0x08,0x10) and dest ≥ 0x20 resolve to nullptr (modelled as a no-op
write, the spec's stated policy for the reserved ranges); dest in
[0x10,0x20) writes lane i of temporary register dest-0x10. -/
def writeDest (s : VertexShaderState) (d : Nat) (i : Fin 4) (v : ℚ) :
    VertexShaderState :=
  if d < 0x08 then
    { s with out_lanes :=
        Function.update s.out_lanes (s.output_register_table (4 * d) + i.val) v }
  else if d < 0x10 then
    s
  else if d < 0x20 then
    { s with temporary_registers := fun n j =>
        if n = d - 0x10 ∧ j = i then v else s.temporary_registers n j }
  else
    s

/-- The masked per-component write loop shared by the arithmetic
opcodes: for each lane in the given order, write when the destination
mask enables it (the loops with the DestComponentEnabled guard). -/
def writeLanes (d : Nat) (mask : Fin 4 → Bool) (vals : Fin 4 → ℚ) :
    List (Fin 4) → VertexShaderState → VertexShaderState
  | [], s => s
  | i :: rest, s =>
      writeLanes d mask vals rest (if mask i then writeDest s d i (vals i) else s)

/-- The four-lane src1 vector assembled before the opcode switch:
swizzle selectors applied to the looked-up register, then the optional
negation (multiplication by FromFloat32(-1)). -/
def sourceVec1 (env : ShaderEnv) (s : VertexShaderState) : Fin 4 → ℚ :=
  let instr := env.prog s.program_counter
  let sw := env.swz instr.operand_desc_id
  let raw := lookupSource env s instr.src1
  fun i =>
    let x := raw (sw.selSrc1 i)
    if sw.negate_src1 then x * (-1) else x

/-- The four-lane src2 vector assembled before the opcode switch. -/
def sourceVec2 (env : ShaderEnv) (s : VertexShaderState) : Fin 4 → ℚ :=
  let instr := env.prog s.program_counter
  let sw := env.swz instr.operand_desc_id
  let raw := lookupSource env s instr.src2
  fun i => raw (sw.selSrc2 i)

/-- The DP3 accumulation: dot = 0, then dot = dot + src1[i]*src2[i]
for i = 0,1,2. -/
def dotProduct3 (env : ShaderEnv) (s : VertexShaderState) : ℚ :=
  0 + sourceVec1 env s 0 * sourceVec2 env s 0
    + sourceVec1 env s 1 * sourceVec2 env s 1
    + sourceVec1 env s 2 * sourceVec2 env s 2

/-- The DP4 accumulation: one more term than DP3. -/
def dotProduct4 (env : ShaderEnv) (s : VertexShaderState) : ℚ :=
  dotProduct3 env s + sourceVec1 env s 3 * sourceVec2 env s 3

/-- The max_opdesc_id debug-counter update performed by every
arithmetic opcode. -/
def bumpOpdesc (s : VertexShaderState) (id : Nat) : VertexShaderState :=
  { s with max_opdesc_id := max s.max_opdesc_id (1 + id) }

/-- The condition checked by the debug assert guarding CALL:
call_stack_pointer - call_stack < sizeof(call_stack).  The pointer
difference counts elements (the current stack index) while sizeof
counts bytes: 8 entries of 4 bytes each, hence the constant 32. -/
def callStackAssertCond (sp : Nat) : Bool := decide (sp < 32)

/-- One iteration of the while loop of ProcessShaderCode.  Returns the
state after the iteration (with the conditional program-counter
increment applied) and the exit_loop flag. -/
def step (env : ShaderEnv) (s0 : VertexShaderState) : VertexShaderState × Bool :=
  let instr := env.prog s0.program_counter
  let s := { s0 with max_offset := max s0.max_offset (1 + s0.program_counter) }
  let sw := env.swz instr.operand_desc_id
  let src1 := sourceVec1 env s0
  let src2 := sourceVec2 env s0
  let d := instr.dest
  -- (state after the switch body, increment_pc, exit_loop)
  let res : VertexShaderState × Bool × Bool :=
    match instr.opcode with
    | .ADD =>
      (writeLanes d sw.destMask (fun i => src1 i + src2 i) (List.finRange 4)
        (bumpOpdesc s instr.operand_desc_id), true, false)
    | .MUL =>
      (writeLanes d sw.destMask (fun i => src1 i * src2 i) (List.finRange 4)
        (bumpOpdesc s instr.operand_desc_id), true, false)
    | .DP3 =>
      -- dot accumulated over num_components = 3 lanes; the write loop
      -- also runs only over those 3 lanes (List.take 3)
      (writeLanes d sw.destMask (fun _ => dotProduct3 env s0)
        ((List.finRange 4).take 3)
        (bumpOpdesc s instr.operand_desc_id), true, false)
    | .DP4 =>
      (writeLanes d sw.destMask (fun _ => dotProduct4 env s0) (List.finRange 4)
        (bumpOpdesc s instr.operand_desc_id), true, false)
    | .RCP =>
      -- dest[i] = FromFloat32(1.0 / src1[i].ToFloat32()): the division
      -- is per enabled lane i, and is total (non-trapping) here as the
      -- host double division is
      (writeLanes d sw.destMask (fun i => 1 / src1 i) (List.finRange 4)
        (bumpOpdesc s instr.operand_desc_id), true, false)
    | .RSQ =>
      (writeLanes d sw.destMask (fun i => env.rsqFn (src1 i)) (List.finRange 4)
        (bumpOpdesc s instr.operand_desc_id), true, false)
    | .MOV =>
      (writeLanes d sw.destMask (fun i => src1 i) (List.finRange 4)
        (bumpOpdesc s instr.operand_desc_id), true, false)
    | .END =>
      -- if (*csp == INVALID_ADDRESS) terminate, else jump to the saved
      -- PC, invalidate the entry and move the stack pointer up
      match s.call_stack s.call_stack_pointer with
      | none => (s, true, true)
      | some ret =>
        ({ s with
            program_counter := ret,
            call_stack :=
              Function.update s.call_stack s.call_stack_pointer none,
            call_stack_pointer := s.call_stack_pointer - 1 }, true, false)
    | .CALL =>
      -- pushes state.program_counter - shader_memory (the offset of the
      -- CALL itself) into the next stack slot; increment_pc = false
      ({ s with
          call_stack :=
            Function.update s.call_stack (s.call_stack_pointer + 1)
              (some s.program_counter),
          call_stack_pointer := s.call_stack_pointer + 1,
          program_counter := instr.dest_offset }, false, false)
    | .NOP => (s, true, false)
  match res with
  | (s1, inc, ex) =>
    ({ s1 with program_counter :=
        if inc then s1.program_counter + 1 else s1.program_counter }, ex)

/-- The while loop of ProcessShaderCode, with fuel: some final state on
termination within the given number of iterations, none otherwise. -/
def run (env : ShaderEnv) : Nat → VertexShaderState → Option VertexShaderState
  | 0, _ => none
  | fuel + 1, s =>
    match step env s with
    | (s1, true) => some s1
    | (s1, false) => run env fuel s1

/-- Iterating the loop body a fixed number of times (ignoring the exit
flag); used to inspect intermediate states. -/
def steps (env : ShaderEnv) : Nat → VertexShaderState → VertexShaderState
  | 0, s => s
  | n + 1, s => steps env n (step env s).1

/-- Modelled from the spec: the sentinel for unmapped input slots.
RunShader points unused slots at a local float24 dummy_register; the
Float24 class definition lives in video_core/math.h, which is absent
from this snapshot, and the spec fixes the sentinel to read as zero. -/
def dummyRegister : Fin 4 → ℚ := fun _ => 0

/-- The input-register-table setup of RunShader: every slot starts at
the sentinel, then for each i with num_attributes > i (i = 0..15, in
order) slot attribute_i_register is pointed at input.attr[i]. -/
def setupInputTable (attrReg : Nat → Nat) (numAttr : Int)
    (attr : Nat → Fin 4 → ℚ) : Nat → Fin 4 → ℚ :=
  (List.range 16).foldl
    (fun tbl i =>
      if Int.ofNat i < numAttr then Function.update tbl (attrReg i) (attr i)
      else tbl)
    (fun _ => dummyRegister)

/-- The registers RunShader reads: vs_main_offset, the
vs_input_register_map slots, and the vs_output_attributes semantic
map (outMap a c = map component c of output attribute a). -/
structure VsRegs where
  vs_main_offset : Nat
  attrReg : Nat → Nat
  outMap : Nat → Fin 4 → Nat

/-- The output-register-table setup of RunShader: for each output
attribute i (0..6) and component comp (the nested loops), table slot
4*i+comp receives the OutputVertex lane index given by the semantic
code map_{x,y,z,w}[comp] (outMap i comp).  The loops overwrite every
slot below 28; the base table is all-zero. -/
def setupOutputTable (outMap : Nat → Fin 4 → Nat) : Nat → Nat :=
  (List.range 7).foldl
    (fun tbl i =>
      (List.finRange 4).foldl
        (fun tbl2 comp => Function.update tbl2 (4 * i + comp.val) (outMap i comp))
        tbl)
    (fun _ => 0)

/-- The state RunShader builds before calling ProcessShaderCode.
out_lanes (the C++ local OutputVertex, default-initialized) starts at
zero. -/
def initState (regs : VsRegs) (attr : Nat → Fin 4 → ℚ) (numAttr : Int) :
    VertexShaderState where
  program_counter := regs.vs_main_offset
  input_register_table := setupInputTable regs.attrReg numAttr attr
  output_register_table := setupOutputTable regs.outMap
  out_lanes := fun _ => 0
  temporary_registers := fun _ _ => 0
  status_registers := fun _ => false
  call_stack := fun _ => none
  call_stack_pointer := 0
  max_offset := 0
  max_opdesc_id := 0

/-- An identity swizzle with the given destination mask: component
selectors pick x,y,z,w in order, no negation. -/
def idSwizzle (mask : Fin 4 → Bool) : SwizzlePattern where
  selSrc1 := fun i => i
  selSrc2 := fun i => i
  destMask := mask
  negate_src1 := false

/-- The source register operand v0 (input register 0). -/
def inputReg0 : SourceRegister := ⟨.Input, 0⟩

/-- A common-format instruction reading v0 for both sources, with the
given opcode, destination, operand descriptor id and jump target. -/
def mkInstr (op : OpCode) (d : Nat) (odid : Nat) (tgt : Nat) : Instruction where
  opcode := op
  dest := d
  src1 := inputReg0
  src2 := inputReg0
  operand_desc_id := odid
  dest_offset := tgt

/-- The identity VS I/O map: attribute i reads input slot i, output
attribute a component c drives OutputVertex lane 4*a+c, and the main
offset is 0. -/
def idRegs : VsRegs where
  vs_main_offset := 0
  attrReg := fun i => i
  outMap := fun a c => 4 * a + c.val

/-- Write mask enabling only the x component. -/
def maskX : Fin 4 → Bool := fun i => decide (i = 0)

/-- Write mask enabling every component. -/
def maskAll : Fin 4 → Bool := fun _ => true

/-- The claim C1 shader: CALL 3; END; <3:> MOV o0.x, v0.x; END.
Offset 2 is never executed and holds NOP. -/
def c1prog : Nat → Instruction := fun pc =>
  match pc with
  | 0 => mkInstr .CALL 0 0 3
  | 1 => mkInstr .END 0 0 0
  | 3 => mkInstr .MOV 0 1 0
  | 4 => mkInstr .END 0 0 0
  | _ => mkInstr .NOP 0 0 0

/-- The environment for claim C1: the shader above, swizzle slot 1
masking to x only (for the MOV), slot 0 irrelevant. -/
def c1env : ShaderEnv where
  prog := c1prog
  swz := fun odid => if odid = 1 then idSwizzle maskX else idSwizzle maskAll
  uni := fun _ _ => 0
  rsqFn := fun _ => 0

end VertexShader

namespace Rasterizer

/-- Texture coordinate wrapping modes; other stands for the values
hitting the C++ default case (log, assert, return 0). -/
inductive WrapMode
  | ClampToEdge
  | Repeat
  | other
deriving DecidableEq

/-- The texture-unit register fields read by the rasterizer loop. -/
structure TextureConfig where
  enabled : Bool
  width : Nat
  height : Nat
  wrap_s : WrapMode
  wrap_t : WrapMode
deriving DecidableEq

/-- The C-style (int) cast applied to a Float24 product: truncation
toward zero. -/
def intTrunc (q : ℚ) : Int := q.num.tdiv (q.den : Int)

/-- GetWrappedTexCoord from rasterizer.cpp.  ClampToEdge clamps to
[0, size-1]; Repeat converts val to a 32-bit unsigned (mod 2^32) and
reduces mod size; the default case returns 0. -/
def GetWrappedTexCoord (mode : WrapMode) (val : Int) (size : Nat) : Int :=
  match mode with
  | .ClampToEdge => min (max val 0) ((size : Int) - 1)
  | .Repeat => (val % (4294967296 : Int)) % (size : Int)
  | .other => 0

/-- The per-texture-unit coordinate computation and wrap step of the
rasterizer loop body: s and t are truncated from unit i's own width and
height ((int)(uv[i].u() * texture.config.width) etc.), but GetWrappedTexCoord
is invoked with registers.texture0.wrap_s / wrap_t and
registers.texture0.width / height for every unit i. -/
def unitWrappedCoord (texs : Fin 3 → TextureConfig) (uv : Fin 3 → ℚ × ℚ)
    (i : Fin 3) : Int × Int :=
  let texture := texs i
  let s := intTrunc ((uv i).1 * (texture.width : ℚ))
  let t := intTrunc ((uv i).2 * (texture.height : ℚ))
  (GetWrappedTexCoord (texs 0).wrap_s s (texs 0).width,
   GetWrappedTexCoord (texs 0).wrap_t t (texs 0).height)

/-- An RGBA quadruple of 8-bit channels. -/
structure Vec4u8 where
  r : Nat
  g : Nat
  b : Nat
  a : Nat
deriving DecidableEq

/-- Whether the rasterizer samples texture unit i: the loop body is
skipped by continue exactly when texture.enabled holds. -/
def unitSampled (tex : TextureConfig) : Bool := !tex.enabled

/-- The TEV texture source contributed by a unit.
Math::Vec4<u8> texture_color[3]{} zero-initializes every unit to
(0,0,0,0); the loop overwrites the units it does not skip with the
fetched texel bytes (source_ptr[2], source_ptr[1], source_ptr[0],
abstracted as the texel triple since guest memory is external) and
alpha 0xFF. -/
def textureUnitColor (tex : TextureConfig) (texel : Nat × Nat × Nat) : Vec4u8 :=
  if tex.enabled then ⟨0, 0, 0, 0⟩
  else ⟨texel.1, texel.2.1, texel.2.2, 0xFF⟩

/-- TEV combiner operations; other stands for the values hitting the
C++ default case (log, return zero). -/
inductive TevOp
  | Replace
  | Modulate
  | Add
  | Lerp
  | other
deriving DecidableEq

/-- One channel of the ColorCombine lambda of rasterizer.cpp.  The
branches compute in C int arithmetic; storing back into a u8 channel
(the Cast<u8> calls) reduces mod 256.  Inputs are u8 values (< 256). -/
def ColorCombineChannel (op : TevOp) (in0 in1 in2 : Nat) : Nat :=
  match op with
  | .Replace => in0
  | .Modulate => (in0 * in1 / 255) % 256
  | .Add => (in0 + in1) % 256
  | .Lerp => ((in0 * in2 + in1 * (255 - in2)) / 255) % 256
  | .other => 0

/-- The AlphaCombine lambda of rasterizer.cpp.  The branches compute in
C int arithmetic; the u8 return type reduces mod 256. -/
def AlphaCombine (op : TevOp) (in0 in1 in2 : Nat) : Nat :=
  match op with
  | .Replace => in0
  | .Modulate => (in0 * in1 / 255) % 256
  | .Add => (in0 + in1) % 256
  | .Lerp => ((in0 * in2 + in1 * (255 - in2)) / 255) % 256
  | .other => 0

end Rasterizer

end Pica

namespace GPU

/-- bswap32 of a 32-bit word. -/
def bswap32 (v : Nat) : Nat :=
  v % 256 * 2 ^ 24 + v / 2 ^ 8 % 256 * 2 ^ 16 + v / 2 ^ 16 % 256 * 2 ^ 8
    + v / 2 ^ 24 % 256

/-- The fill loop of GPU::Write:
for (ptr = start; ptr < end; ++ptr) *ptr = bswap32(value).
Guest memory is word-addressed; the second argument is the number of
words still to fill (end - start). -/
def fillWords (value : Nat) : Nat → Nat → (Nat → Nat) → (Nat → Nat)
  | _, 0, mem => mem
  | start, n + 1, mem =>
      fillWords value (start + 1) n (Function.update mem start (bswap32 value))

/-- The memory_fill_config register group fields the trigger reads.
startWord and endWord are the word indices GetStartAddress and
GetEndAddress resolve to after physical-to-virtual translation (the
translation itself is external to the core). -/
structure MemoryFillConfig where
  address_start : Nat
  startWord : Nat
  endWord : Nat
  value : Nat

/-- GPU::Write at index memory_fill_config[i].value: the plain register
store g_regs[index] = data happens first, so the fill uses the newly
written value; the fill runs only when config.address_start is nonzero,
overwriting every word in [startWord, endWord) with bswap32(value). -/
def writeMemoryFillValue (cfg : MemoryFillConfig) (data : Nat)
    (mem : Nat → Nat) : MemoryFillConfig × (Nat → Nat) :=
  let cfg2 := { cfg with value := data }
  if cfg2.address_start ≠ 0 then
    (cfg2, fillWords cfg2.value cfg2.startWord (cfg2.endWord - cfg2.startWord) mem)
  else
    (cfg2, mem)

end GPU

namespace Pica.VertexShader

/-- Write mask enabling only the y component. -/
def maskY : Fin 4 → Bool := fun i => decide (i = 1)

/-- An all-zero input vertex. -/
def zeroIn : Nat → Fin 4 → ℚ := fun _ _ => 0

/-- An all-ones input vertex. -/
def onesIn : Nat → Fin 4 → ℚ := fun _ _ => 1

/-- The machine state after the CALL of the claim C1 shader: PC moved
to 3 without increment, the CALL offset 0 saved in stack slot 1. -/
def c1st1 (v : Nat → Fin 4 → ℚ) : VertexShaderState :=
  { initState idRegs v 1 with
      program_counter := 3
      max_offset := 1
      call_stack := Function.update (initState idRegs v 1).call_stack 1 (some 0)
      call_stack_pointer := 1 }

/-- The state after the MOV at offset 3 wrote v0.x to o0.x. -/
def c1st2 (v : Nat → Fin 4 → ℚ) : VertexShaderState :=
  { c1st1 v with
      program_counter := 4
      max_offset := 4
      max_opdesc_id := 2
      out_lanes := Function.update (c1st1 v).out_lanes 0 (v 0 0) }

/-- The state after the END at offset 4 popped the call stack and the
increment moved the PC to the instruction after the CALL. -/
def c1st3 (v : Nat → Fin 4 → ℚ) : VertexShaderState :=
  { c1st2 v with
      program_counter := 1
      max_offset := 5
      call_stack := Function.update (c1st2 v).call_stack 1 none
      call_stack_pointer := 0 }

/-- The state after the END at offset 1 found the stack empty and
exited (the increment still ran). -/
def c1st4 (v : Nat → Fin 4 → ℚ) : VertexShaderState :=
  { c1st3 v with program_counter := 2 }

/-- Claim C2 fixture: a single RCP into temporary register 0. -/
def c2prog : Nat → Instruction := fun pc =>
  match pc with
  | 0 => mkInstr .RCP 0x10 0 0
  | _ => mkInstr .NOP 0 0 0

/-- Claim C2 environment: identity swizzle masked to the y lane. -/
def c2env : ShaderEnv where
  prog := c2prog
  swz := fun _ => idSwizzle maskY
  uni := fun _ _ => 0
  rsqFn := fun _ => 0

/-- Claim C2 input: v0 = (1, 2, 3, 4). -/
def c2in : Nat → Fin 4 → ℚ := fun _ i =>
  match i with
  | 0 => 1
  | 1 => 2
  | 2 => 3
  | 3 => 4

/-- Claim C4 fixture: an unbounded chain of CALLs, each jumping one
instruction forward (8 nested calls never return). -/
def c4prog : Nat → Instruction := fun pc => mkInstr .CALL 0 0 (pc + 1)

/-- Claim C4 environment. -/
def c4env : ShaderEnv where
  prog := c4prog
  swz := fun _ => idSwizzle maskAll
  uni := fun _ _ => 0
  rsqFn := fun _ => 0

/-- Claim C6 fixture: a DP3 into temporary register 0 with the full
write mask. -/
def c6prog : Nat → Instruction := fun pc =>
  match pc with
  | 0 => mkInstr .DP3 0x10 0 0
  | _ => mkInstr .NOP 0 0 0

/-- Claim C6 environment for the DP3 counterexample. -/
def c6env : ShaderEnv where
  prog := c6prog
  swz := fun _ => idSwizzle maskAll
  uni := fun _ _ => 0
  rsqFn := fun _ => 0

/-- Claim C6 scenario shader: DP4 o0, v0, v0; END (full write mask). -/
def dp4prog : Nat → Instruction := fun pc =>
  match pc with
  | 0 => mkInstr .DP4 0 0 0
  | _ => mkInstr .END 0 0 0

/-- Claim C6 scenario environment. -/
def dp4env : ShaderEnv where
  prog := dp4prog
  swz := fun _ => idSwizzle maskAll
  uni := fun _ _ => 0
  rsqFn := fun _ => 0

/-- The dot product the DP4 of the claim C6 scenario computes. -/
def dp4dot (v : Nat → Fin 4 → ℚ) : ℚ :=
  dotProduct4 dp4env (initState idRegs v 1)

/-- The state after the DP4 of the claim C6 scenario: the dot product
broadcast to all four o0 lanes. -/
def dp4st1 (v : Nat → Fin 4 → ℚ) : VertexShaderState :=
  { initState idRegs v 1 with
      program_counter := 1
      max_offset := 1
      max_opdesc_id := 1
      out_lanes :=
        Function.update (Function.update (Function.update (Function.update
          (initState idRegs v 1).out_lanes 0 (dp4dot v)) 1 (dp4dot v))
          2 (dp4dot v)) 3 (dp4dot v) }

/-- The state after the END of the claim C6 scenario. -/
def dp4st2 (v : Nat → Fin 4 → ℚ) : VertexShaderState :=
  { dp4st1 v with program_counter := 2, max_offset := 2 }

/-- Claim C8 fixture: every instruction is CALL 9. -/
def c8prog : Nat → Instruction := fun _ => mkInstr .CALL 0 0 9

/-- Claim C8 environment. -/
def c8env : ShaderEnv where
  prog := c8prog
  swz := fun _ => idSwizzle maskAll
  uni := fun _ _ => 0
  rsqFn := fun _ => 0

/-- Claim C8 fixture state: about to execute the CALL at offset 5. -/
def c8st : VertexShaderState :=
  { initState idRegs zeroIn 0 with program_counter := 5 }

end Pica.VertexShader

namespace Pica.Rasterizer

/-- Claim C10 witness fixture: a unit with Repeat wrapping. -/
def texRepeat : TextureConfig := ⟨false, 4, 4, .Repeat, .Repeat⟩

/-- Claim C10 witness fixture: a unit with ClampToEdge wrapping. -/
def texClamp : TextureConfig := ⟨false, 4, 4, .ClampToEdge, .ClampToEdge⟩

/-- Claim C10 witness fixture: all three units wrap with Repeat. -/
def texsC10 : Fin 3 → TextureConfig := fun _ => texRepeat

/-- Claim C10 witness fixture: units 1 and 2 switched to ClampToEdge,
unit 0 unchanged. -/
def texsC10b : Fin 3 → TextureConfig := fun j =>
  if j = 0 then texRepeat else texClamp

/-- Claim C10 witness fixture texture coordinates. -/
def uvC10 : Fin 3 → ℚ × ℚ := fun _ => (1, 1)

end Pica.Rasterizer

namespace GPU

/-- Claim C9 witness fixture: fill words [1024, 1028). -/
def fillCfg : MemoryFillConfig := ⟨1, 1024, 1028, 0⟩

end GPU

namespace Pica.VertexShader

/-- Reading back a temporary-register lane after a single destination
write: for a destination field in the temporary range, lane i of
register d - 0x10 holds the written value and everything else is
untouched. -/
theorem writeDest_temporary_apply (s : VertexShaderState) (d : Nat) (i : Fin 4)
    (v : ℚ) (h16 : 0x10 ≤ d) (h20 : d < 0x20) (n : Nat) (j : Fin 4) :
    (writeDest s d i v).temporary_registers n j =
      if n = d - 0x10 ∧ j = i then v else s.temporary_registers n j := by
  unfold writeDest
  rw [if_neg (by omega), if_neg (by omega), if_pos h20]

/-- Reading back a temporary-register lane after the masked write loop:
lane j of register d - 0x10 holds vals j when some iteration wrote it
(j enabled and listed), else the old value; the value does not depend
on the position of j in the list. -/
theorem writeLanes_temporary_apply (d : Nat) (h16 : 0x10 ≤ d) (h20 : d < 0x20)
    (mask : Fin 4 → Bool) (vals : Fin 4 → ℚ) :
    ∀ (lanes : List (Fin 4)) (s : VertexShaderState) (n : Nat) (j : Fin 4),
      (writeLanes d mask vals lanes s).temporary_registers n j =
        if n = d - 0x10 ∧ j ∈ lanes ∧ mask j = true then vals j
        else s.temporary_registers n j := by
  intro lanes
  induction lanes with
  | nil =>
    intro s n j
    rw [writeLanes]
    rw [if_neg (by simp)]
  | cons i rest ih =>
    intro s n j
    rw [writeLanes, ih]
    by_cases h1 : n = d - 0x10 ∧ j ∈ rest ∧ mask j = true
    · rw [if_pos h1, if_pos ⟨h1.1, List.mem_cons_of_mem _ h1.2.1, h1.2.2⟩]
    · rw [if_neg h1]
      by_cases hmi : mask i = true
      · rw [if_pos hmi, writeDest_temporary_apply s d i (vals i) h16 h20]
        by_cases h2 : n = d - 0x10 ∧ j = i
        · rw [if_pos h2,
            if_pos ⟨h2.1, by rw [h2.2]; exact List.mem_cons_self i rest,
              by rw [h2.2]; exact hmi⟩]
          rw [h2.2]
        · rw [if_neg h2, if_neg ?hc]
          case hc =>
            rintro ⟨hn, hj, hm⟩
            rcases List.mem_cons.mp hj with hji | hjr
            · exact h2 ⟨hn, hji⟩
            · exact h1 ⟨hn, hjr, hm⟩
      · rw [if_neg hmi, if_neg ?hc2]
        case hc2 =>
          rintro ⟨hn, hj, hm⟩
          rcases List.mem_cons.mp hj with hji | hjr
          · rw [hji] at hm
            exact hmi hm
          · exact h1 ⟨hn, hjr, hm⟩

/-- Claim C1: for every input vertex v, the shader CALL 3; END;
<3:> MOV o0.x, v0.x; END with the identity VS I/O map terminates (run
returns a final state within 10 loop iterations), the program counter
reaches offset 3 and returns (max_offset = 5 records that the END at
offset 4 after the MOV at 3 executed; the machine then exits at the
top-level END at offset 1, stopping with PC = 2), and the o0.x output
lane holds v.attr[0].x. -/
theorem c1_call_end_scenario (v : Nat → Fin 4 → ℚ) :
    ∃ f, run c1env 10 (initState idRegs v 1) = some f ∧
      f.out_lanes 0 = v 0 0 ∧ f.program_counter = 2 ∧ f.max_offset = 5 := by
  have e0 : step c1env (initState idRegs v 1) = (c1st1 v, false) := rfl
  have e1 : step c1env (c1st1 v) = (c1st2 v, false) := rfl
  have e2 : step c1env (c1st2 v) = (c1st3 v, false) := rfl
  have e3 : step c1env (c1st3 v) = (c1st4 v, true) := rfl
  refine ⟨c1st4 v, ?_, rfl, rfl, rfl⟩
  simp only [run, e0, e1, e2, e3]

/-- Claim C5: any input register slot that none of the first
num_attributes attributes is mapped to still reads as the Float24 zero
sentinel after the RunShader input-table setup. -/
theorem c5_unmapped_input_slot_zero (attrReg : Nat → Nat) (numAttr : Int)
    (attr : Nat → Fin 4 → ℚ) (slot : Nat)
    (h : ∀ i < 16, Int.ofNat i < numAttr → attrReg i ≠ slot) (lane : Fin 4) :
    setupInputTable attrReg numAttr attr slot lane = 0 := by
  have aux : ∀ (l : List Nat) (tbl : Nat → Fin 4 → ℚ),
      (∀ i ∈ l, Int.ofNat i < numAttr → attrReg i ≠ slot) →
      (l.foldl
        (fun tbl i =>
          if Int.ofNat i < numAttr then Function.update tbl (attrReg i) (attr i)
          else tbl) tbl) slot lane = tbl slot lane := by
    intro l
    induction l with
    | nil => intro tbl _; rfl
    | cons a as ih =>
      intro tbl hl
      rw [List.foldl_cons]
      rw [ih _ (fun i hi => hl i (List.mem_cons_of_mem _ hi))]
      by_cases ha : Int.ofNat a < numAttr
      · rw [if_pos ha,
          Function.update_noteq (Ne.symm (hl a (List.mem_cons_self a as) ha))]
      · rw [if_neg ha]
  unfold setupInputTable
  rw [aux _ _ (fun i hi => h i (List.mem_range.mp hi))]
  rfl

/-- Witness for claim C5 at a concrete instance: the identity map with
one attribute leaves slot 5 unmapped, and slot 5 reads zero. -/
theorem c5_unmapped_input_slot_zero_witness :
    (∀ i < 16, Int.ofNat i < 1 → (fun n : Nat => n) i ≠ 5) ∧
    setupInputTable (fun n => n) 1 (fun _ _ => (7 : ℚ)) 5 0 = 0 :=
  ⟨by decide, c5_unmapped_input_slot_zero (fun n => n) 1 (fun _ _ => (7 : ℚ)) 5
    (by decide) 0⟩

end Pica.VertexShader

namespace GPU

/-- Reading back guest memory after the fill loop: a word address holds
bswap32(value) when it lies in the filled range, the old contents
otherwise. -/
theorem fillWords_apply (value : Nat) :
    ∀ (n start : Nat) (mem : Nat → Nat) (a : Nat),
      fillWords value start n mem a =
        if start ≤ a ∧ a < start + n then bswap32 value else mem a := by
  intro n
  induction n with
  | zero =>
    intro start mem a
    rw [fillWords]
    rw [if_neg (by omega)]
  | succ k ih =>
    intro start mem a
    rw [fillWords, ih]
    rw [Function.update_apply]
    by_cases h1 : start + 1 ≤ a ∧ a < start + 1 + k
    · rw [if_pos h1, if_pos (by omega)]
    · rw [if_neg h1]
      by_cases h2 : a = start
      · rw [if_pos h2, if_pos (by omega)]
      · rw [if_neg h2, if_neg (by omega)]

/-- Claim C9: when a write to memory_fill_config[i].value triggers the
fill engine (address_start nonzero), every word of guest memory in the
configured [start, end) range afterwards reads bswap32 of the written
value. -/
theorem c9_fill_engine (cfg : MemoryFillConfig) (data : Nat) (mem : Nat → Nat)
    (a : Nat) (htrig : cfg.address_start ≠ 0)
    (h1 : cfg.startWord ≤ a) (h2 : a < cfg.endWord) :
    (writeMemoryFillValue cfg data mem).2 a = bswap32 data := by
  simp only [writeMemoryFillValue]
  rw [if_pos htrig]
  show fillWords data cfg.startWord (cfg.endWord - cfg.startWord) mem a =
    bswap32 data
  rw [fillWords_apply, if_pos ⟨h1, by omega⟩]

/-- Witness for claim C9 at a concrete instance (the spec's fill
scenario): filling words [1024, 1028) with 0x11223344 makes word 1025
read the byte-swapped 0x44332211. -/
theorem c9_fill_engine_witness :
    fillCfg.address_start ≠ 0 ∧ fillCfg.startWord ≤ 1025 ∧
    (1025 : Nat) < fillCfg.endWord ∧
    (writeMemoryFillValue fillCfg 0x11223344 (fun _ => 0)).2 1025 =
      bswap32 0x11223344 ∧
    bswap32 0x11223344 = 0x44332211 :=
  ⟨by decide, by decide, by decide,
    c9_fill_engine fillCfg 0x11223344 (fun _ => 0) 1025 (by decide) (by decide)
      (by decide),
    by decide⟩

end GPU

namespace Pica.Rasterizer

/-- Claim C10: for every texture unit i, the wrap step of the
rasterizer applies texture unit 0's wrap_s / wrap_t together with unit
0's width and height to coordinates that were truncated from unit i's
own width and height; consequently the result is unchanged by any
change to the wrap registers of units 1 and 2 (anything keeping unit
0's config and all units' sizes fixed). -/
theorem c10_wrap_uses_texture0 (texs texs2 : Fin 3 → TextureConfig)
    (uv : Fin 3 → ℚ × ℚ) (i : Fin 3)
    (h0 : texs2 0 = texs 0)
    (hw : ∀ j, (texs2 j).width = (texs j).width)
    (hh : ∀ j, (texs2 j).height = (texs j).height) :
    unitWrappedCoord texs uv i =
      (GetWrappedTexCoord (texs 0).wrap_s
        (intTrunc ((uv i).1 * ((texs i).width : ℚ))) (texs 0).width,
       GetWrappedTexCoord (texs 0).wrap_t
        (intTrunc ((uv i).2 * ((texs i).height : ℚ))) (texs 0).height) ∧
    unitWrappedCoord texs2 uv i = unitWrappedCoord texs uv i := by
  constructor
  · rfl
  · simp only [unitWrappedCoord]
    rw [h0, hw i, hh i]

/-- Witness for claim C10 at a concrete instance: switching units 1
and 2 from Repeat to ClampToEdge leaves unit 2's wrapped coordinates
unchanged, because only unit 0's wrap registers are consulted. -/
theorem c10_wrap_uses_texture0_witness :
    texsC10b 0 = texsC10 0 ∧ texsC10b 2 ≠ texsC10 2 ∧
    unitWrappedCoord texsC10b uvC10 2 = unitWrappedCoord texsC10 uvC10 2 :=
  ⟨by decide, by decide,
    (c10_wrap_uses_texture0 texsC10 texsC10b uvC10 2 (by decide) (by decide)
      (by decide)).2⟩

end Pica.Rasterizer

namespace Pica.VertexShader

/-- Claim C2 (code evaluation): with v0 = (1,2,3,4), identity swizzle
and only the y lane enabled, the RCP writes 1/src1[1] = 1/2 to lane y
of temporary register 0 — not the lane-0 scalar 1/src1[0] = 1 that the
claim prescribes.  The division itself is total (non-trapping). -/
theorem c2_rcp_per_lane_eval :
    (step c2env (initState idRegs c2in 1)).1.temporary_registers 0 1 = 1 / 2 ∧
    (idSwizzle maskY).destMask 1 = true ∧
    (1 / 2 : ℚ) ≠ 1 / c2in 0 0 := by
  refine ⟨rfl, rfl, ?_⟩
  have hc : c2in 0 0 = 1 := rfl
  rw [hc]
  norm_num

/-- Claim C4 (code evaluation): after 7 nested CALLs the stack index is
7 (the 8-entry array call_stack[0..7] is exhausted: slot 0 is the
initial position, slots 1..7 hold saved PCs); the debug assert's
condition still accepts (7 < 32, because sizeof counts 8 entries * 4
bytes); the 8th CALL then bumps the index to 8 and stores its saved PC
in slot 8 — outside the 8-entry array (8 < 8 is false). -/
theorem c4_call_stack_overflow_eval :
    (steps c4env 7 (initState idRegs zeroIn 0)).call_stack_pointer = 7 ∧
    callStackAssertCond 7 = true ∧
    (steps c4env 8 (initState idRegs zeroIn 0)).call_stack_pointer = 8 ∧
    (steps c4env 8 (initState idRegs zeroIn 0)).call_stack 8 = some 7 ∧
    ¬ (8 < 8) :=
  ⟨rfl, rfl, rfl, rfl, by omega⟩

/-- Claim C8 (counterexample): the CALL at offset 5 pushes 5 — the
offset of the CALL itself — onto the call stack, not the claimed
PC+1 = 6; the jump to dest_offset = 9 happens without increment. -/
theorem c8_call_pushes_pc_counterexample :
    (step c8env c8st).1.call_stack 1 = some 5 ∧
    (step c8env c8st).1.program_counter = 9 ∧
    some 5 ≠ some (5 + 1) :=
  ⟨rfl, rfl, by decide⟩

/-- Claim C8 (amended): every executed CALL pushes the current PC (the
offset of the CALL itself) into the next stack slot and jumps to
flow_control.dest_offset without the normal increment; the END that
later pops the entry jumps to the saved PC and then increments, so
execution resumes at the instruction after the CALL. -/
theorem c8_call_push_amended :
    (∀ (env : ShaderEnv) (s : VertexShaderState),
      (env.prog s.program_counter).opcode = .CALL →
      (step env s).1.call_stack_pointer = s.call_stack_pointer + 1 ∧
      (step env s).1.call_stack (s.call_stack_pointer + 1) =
        some s.program_counter ∧
      (step env s).1.program_counter =
        (env.prog s.program_counter).dest_offset ∧
      (step env s).2 = false) ∧
    (∀ (env : ShaderEnv) (s : VertexShaderState) (ret : Nat),
      (env.prog s.program_counter).opcode = .END →
      s.call_stack s.call_stack_pointer = some ret →
      (step env s).1.program_counter = ret + 1 ∧
      (step env s).1.call_stack_pointer = s.call_stack_pointer - 1 ∧
      (step env s).1.call_stack s.call_stack_pointer = none ∧
      (step env s).2 = false) := by
  constructor
  · intro env s hop
    simp only [step, hop]
    simp
  · intro env s ret hop hstk
    simp only [step, hop]
    simp [hstk]

/-- Witness for claim C8's amended theorem at a concrete instance: the
CALL at offset 5 bumps the stack index from 0 to 1. -/
theorem c8_call_push_amended_witness :
    (c8env.prog c8st.program_counter).opcode = .CALL ∧
    (step c8env c8st).1.call_stack_pointer = c8st.call_stack_pointer + 1 :=
  ⟨rfl, (c8_call_push_amended.1 c8env c8st rfl).1⟩

end Pica.VertexShader

namespace Pica.Rasterizer

/-- Claim C3 (code evaluation): an enabled texture unit is skipped by
the loop (not sampled) and contributes the zero-initialized
transparent black (0,0,0,0), whose alpha is not 255; a disabled unit
is the one that gets sampled (and receives alpha 255).  This is the
inverse of the claimed behavior on both counts. -/
theorem c3_texture_enable_inverted_eval :
    unitSampled ⟨true, 8, 8, .Repeat, .Repeat⟩ = false ∧
    textureUnitColor ⟨true, 8, 8, .Repeat, .Repeat⟩ (10, 20, 30) =
      ⟨0, 0, 0, 0⟩ ∧
    unitSampled ⟨false, 8, 8, .Repeat, .Repeat⟩ = true ∧
    textureUnitColor ⟨false, 8, 8, .Repeat, .Repeat⟩ (10, 20, 30) =
      ⟨10, 20, 30, 255⟩ ∧
    (Vec4u8.mk 0 0 0 0).a ≠ 255 := by decide

/-- Claim C7 (code evaluation): the TEV Add operation wraps modulo 256
instead of saturating: 200 + 100 yields 44 in both the alpha and the
per-channel color combiner, not the claimed 255. -/
theorem c7_tev_add_wraps_eval :
    AlphaCombine .Add 200 100 0 = 44 ∧
    ColorCombineChannel .Add 200 100 0 = 44 ∧
    (44 : Nat) ≠ 255 := by decide

end Pica.Rasterizer

namespace Pica.VertexShader

/-- Lane membership in the DP3 write-loop bound: a lane is visited by
the loop over the first num_components = 3 lanes exactly when its
index is below 3. -/
theorem mem_finRange_take3 (j : Fin 4) :
    j ∈ (List.finRange 4).take 3 ↔ j.val < 3 := by
  fin_cases j <;> decide

/-- Claim C6 (counterexample): a DP3 into temporary register 0 with the
full write mask, sources all ones (dot = 3).  The claim says the dot is
written to every enabled lane including lane 3; the code writes lanes
0..2 (lane 0 indeed reads 3) but leaves enabled lane 3 at its old value
0 ≠ 3. -/
theorem c6_dp3_lane3_counterexample :
    (idSwizzle maskAll).destMask 3 = true ∧
    (step c6env (initState idRegs onesIn 1)).1.temporary_registers 0 0 = 3 ∧
    (step c6env (initState idRegs onesIn 1)).1.temporary_registers 0 3 = 0 ∧
    (0 : ℚ) ≠ 3 := by
  refine ⟨rfl, ?_, rfl, by norm_num⟩
  have h1 : (step c6env (initState idRegs onesIn 1)).1.temporary_registers 0 0
      = 0 + 1 * 1 + 1 * 1 + 1 * 1 := rfl
  rw [h1]
  norm_num

/-- Claim C6 (amended): DP4 broadcasts its 4-lane dot product to every
destination lane enabled by the write mask, and DP4 o0, v, v; END
leaves the sum of squares of v's four components in every output lane;
DP3, however, writes its 3-lane dot product only to the enabled lanes
among lanes 0..2, leaving lane 3 unchanged even when the write mask
enables it. -/
theorem c6_dp_broadcast_amended :
    (∀ (env : ShaderEnv) (s : VertexShaderState),
      (env.prog s.program_counter).opcode = .DP3 →
      0x10 ≤ (env.prog s.program_counter).dest →
      (env.prog s.program_counter).dest < 0x20 →
      ∀ j : Fin 4,
        (step env s).1.temporary_registers
            ((env.prog s.program_counter).dest - 0x10) j =
          if j.val < 3 ∧
            (env.swz (env.prog s.program_counter).operand_desc_id).destMask j
              = true
          then dotProduct3 env s
          else s.temporary_registers
            ((env.prog s.program_counter).dest - 0x10) j) ∧
    (∀ (env : ShaderEnv) (s : VertexShaderState),
      (env.prog s.program_counter).opcode = .DP4 →
      0x10 ≤ (env.prog s.program_counter).dest →
      (env.prog s.program_counter).dest < 0x20 →
      ∀ j : Fin 4,
        (step env s).1.temporary_registers
            ((env.prog s.program_counter).dest - 0x10) j =
          if (env.swz (env.prog s.program_counter).operand_desc_id).destMask j
              = true
          then dotProduct4 env s
          else s.temporary_registers
            ((env.prog s.program_counter).dest - 0x10) j) ∧
    (∀ v : Nat → Fin 4 → ℚ,
      ∃ f, run dp4env 10 (initState idRegs v 1) = some f ∧
        ∀ j : Fin 4, f.out_lanes j.val =
          0 + v 0 0 * v 0 0 + v 0 1 * v 0 1 + v 0 2 * v 0 2
            + v 0 3 * v 0 3) := by
  refine ⟨?_, ?_, ?_⟩
  · intro env s hop h16 h20 j
    simp only [step, hop]
    rw [writeLanes_temporary_apply _ h16 h20]
    simp only [bumpOpdesc, mem_finRange_take3, eq_self_iff_true, true_and]
  · intro env s hop h16 h20 j
    simp only [step, hop]
    rw [writeLanes_temporary_apply _ h16 h20]
    simp only [bumpOpdesc, List.mem_finRange, eq_self_iff_true, true_and]
  · intro v
    have e0 : step dp4env (initState idRegs v 1) = (dp4st1 v, false) := rfl
    have e1 : step dp4env (dp4st1 v) = (dp4st2 v, true) := rfl
    refine ⟨dp4st2 v, by simp only [run, e0, e1], ?_⟩
    intro j
    fin_cases j <;> rfl

/-- Witness for claim C6's amended theorem at a concrete instance: for
the DP3 counterexample fixture, lane 3 of temporary register 0 is left
at its previous value. -/
theorem c6_dp_broadcast_amended_witness :
    (c6env.prog (initState idRegs onesIn 1).program_counter).opcode = .DP3 ∧
    (step c6env (initState idRegs onesIn 1)).1.temporary_registers 0 3 =
      (initState idRegs onesIn 1).temporary_registers 0 3 := by
  refine ⟨rfl, ?_⟩
  have h := c6_dp_broadcast_amended.1 c6env (initState idRegs onesIn 1) rfl
    (by decide) (by decide) 3
  rw [if_neg (by decide)] at h
  exact h

end Pica.VertexShader
